import Mathlib

/-!
# Verification of the simdev_website numerical core

Shallow embedding of the browser-side calculators of the `simdev_website`
repository: the Darcy–Forchheimer curve-fitting engine
(`public/scripts/curve_fitting/curve_fitting.js` and the porous-media page
script), the fluid-property model
(`public/scripts/oil_properties/getOilProperties.js`) and the unit-conversion
module.  JavaScript numbers are idealised as exact rationals (`ℚ`); the
transcendental Walther-equation interpolation is embedded over the reals
(`ℝ`).  Where the JavaScript code can produce the IEEE-754 special values
`Infinity` / `NaN` from a division by zero, the embedding makes this explicit
with the `JSVal` type; where a function signals "no data" by returning `NaN`,
the embedding returns `Option`.
-/

namespace Simdev

/-- A data point `{x, y}` (velocity, pressure loss) as consumed by
`curve_fitting.js`, idealised over exact rationals. -/
structure Point where
  x : ℚ
  y : ℚ
deriving DecidableEq

/-- The two failure modes of `leastSquaresFit` in `curve_fitting.js`:
`"At least 3 data points required for curve fitting"` and
`"Singular matrix - cannot solve for coefficients"`. -/
inductive FitError where
  | insufficientData
  | singularSystem
deriving DecidableEq

/-- `sumX2` accumulated by `leastSquaresFit`: `sumX2 += x * x`. -/
def sumX2 (dataPoints : List Point) : ℚ :=
  (dataPoints.map fun p => p.x * p.x).sum

/-- `sumX4` accumulated by `leastSquaresFit`: `sumX4 += x * x * x * x`. -/
def sumX4 (dataPoints : List Point) : ℚ :=
  (dataPoints.map fun p => p.x * p.x * p.x * p.x).sum

/-- `sumY` accumulated by `leastSquaresFit`: `sumY += y`. -/
def sumY (dataPoints : List Point) : ℚ :=
  (dataPoints.map fun p => p.y).sum

/-- `sumX2Y` accumulated by `leastSquaresFit`: `sumX2Y += x * x * y`. -/
def sumX2Y (dataPoints : List Point) : ℚ :=
  (dataPoints.map fun p => p.x * p.x * p.y).sum

/-- The determinant `denom = n * sumX4 - sumX2 * sumX2` of the 2×2 system
solved by `leastSquaresFit`. -/
def lsfDenom (dataPoints : List Point) : ℚ :=
  (dataPoints.length : ℚ) * sumX4 dataPoints - sumX2 dataPoints * sumX2 dataPoints

/-- `leastSquaresFit` from `curve_fitting.js` (lines 17–49).  Throws for fewer
than 3 points, accumulates the power sums, guards `|denom| < 1e-10`, and
returns
`A = (sumY*sumX4 - sumX2Y*sumX2)/denom`, `B = (n*sumX2Y - sumY*sumX2)/denom`.
(The source also accumulates `sumX`, `sumX3` and `sumXY`, which it never
uses; those dead accumulators are omitted.) -/
def leastSquaresFit (dataPoints : List Point) : Except FitError (ℚ × ℚ) :=
  if dataPoints.length < 3 then
    .error .insufficientData
  else if |lsfDenom dataPoints| < 1e-10 then
    .error .singularSystem
  else
    .ok ((sumY dataPoints * sumX4 dataPoints - sumX2Y dataPoints * sumX2 dataPoints)
           / lsfDenom dataPoints,
         ((dataPoints.length : ℚ) * sumX2Y dataPoints - sumY dataPoints * sumX2 dataPoints)
           / lsfDenom dataPoints)

/-- `yMean` computed by `calculateR2` in `curve_fitting.js`. -/
def yMean (dataPoints : List Point) : ℚ :=
  (dataPoints.map fun p => p.y).sum / (dataPoints.length : ℚ)

/-- `ssTot` computed by `calculateR2`: `Σ (y - yMean)^2`. -/
def ssTot (dataPoints : List Point) : ℚ :=
  (dataPoints.map fun p => (p.y - yMean dataPoints) ^ 2).sum

/-- `ssRes` computed by `calculateR2`: `Σ (y - (A*x + B*x*x))^2`. -/
def ssRes (dataPoints : List Point) (A B : ℚ) : ℚ :=
  (dataPoints.map fun p => (p.y - (A * p.x + B * p.x * p.x)) ^ 2).sum

/-- `calculateR2` from `curve_fitting.js` (lines 59–68):
`R² = 1 - ssRes / ssTot`. -/
def calculateR2 (dataPoints : List Point) (A B : ℚ) : ℚ :=
  1 - ssRes dataPoints A B / ssTot dataPoints

/-- `fitCurve` from the porous-media page script (`part_001`, lines 24–49):
the other normal-equation formulation, using `Σx²,Σx³,Σx⁴` against
`Σxy,Σx²y`, with no length or singularity guard.  The two input arrays are
paired index-wise. -/
def fitCurve (xs ys : List ℚ) : ℚ × ℚ :=
  let pts := xs.zip ys
  let sumX2 := (pts.map fun p => p.1 * p.1).sum
  let sumX3 := (pts.map fun p => p.1 * p.1 * p.1).sum
  let sumX4 := (pts.map fun p => p.1 * p.1 * p.1 * p.1).sum
  let sumXY := (pts.map fun p => p.1 * p.2).sum
  let sumX2Y := (pts.map fun p => p.1 * p.1 * p.2).sum
  let denom := sumX2 * sumX4 - sumX3 * sumX3
  ((sumX4 * sumXY - sumX3 * sumX2Y) / denom,
   (sumX2 * sumX2Y - sumX3 * sumXY) / denom)

/-! ## Claims C9, C2, C1: behaviour of the fit -/

/-- C9: for every sample list of size 0, 1 or 2, `leastSquaresFit` (the fit
implementation chosen as the embedding) fails with `InsufficientData` and
returns no coefficients. -/
theorem leastSquaresFit_insufficientData (dataPoints : List Point)
    (h : dataPoints.length < 3) :
    leastSquaresFit dataPoints = .error .insufficientData := by
  simp [leastSquaresFit, h]

/-- Witness for C9 at the concrete two-point list `[(1,2),(3,4)]`. -/
theorem leastSquaresFit_insufficientData_witness :
    ([⟨1, 2⟩, ⟨3, 4⟩] : List Point).length < 3 ∧
    leastSquaresFit [⟨1, 2⟩, ⟨3, 4⟩] = .error .insufficientData :=
  ⟨by decide, leastSquaresFit_insufficientData _ (by decide)⟩

lemma sumX2_of_const_x (dataPoints : List Point) (c : ℚ)
    (h : ∀ p ∈ dataPoints, p.x = c) :
    sumX2 dataPoints = (dataPoints.length : ℚ) * (c * c) := by
  induction dataPoints with
  | nil => simp [sumX2]
  | cons p rest ih =>
    have hp : p.x = c := h p (List.mem_cons_self p rest)
    have hrest := ih fun q hq => h q (List.mem_cons_of_mem _ hq)
    simp only [sumX2, List.map_cons, List.sum_cons, List.length_cons] at *
    rw [hp, hrest]
    push_cast
    ring

lemma sumX4_of_const_x (dataPoints : List Point) (c : ℚ)
    (h : ∀ p ∈ dataPoints, p.x = c) :
    sumX4 dataPoints = (dataPoints.length : ℚ) * (c * c * c * c) := by
  induction dataPoints with
  | nil => simp [sumX4]
  | cons p rest ih =>
    have hp : p.x = c := h p (List.mem_cons_self p rest)
    have hrest := ih fun q hq => h q (List.mem_cons_of_mem _ hq)
    simp only [sumX4, List.map_cons, List.sum_cons, List.length_cons] at *
    rw [hp, hrest]
    push_cast
    ring

/-- C2: for every list of at least 3 samples that all share the same x value,
`leastSquaresFit` fails with `SingularSystem`: the determinant
`n*Σx⁴ − (Σx²)²` collapses to `n²c⁴ − n²c⁴ = 0`, whose magnitude falls below
the fixed epsilon `1e-10`. -/
theorem leastSquaresFit_singular_of_const_x (dataPoints : List Point) (c : ℚ)
    (hlen : 3 ≤ dataPoints.length) (hx : ∀ p ∈ dataPoints, p.x = c) :
    leastSquaresFit dataPoints = .error .singularSystem := by
  have hdenom : lsfDenom dataPoints = 0 := by
    unfold lsfDenom
    rw [sumX2_of_const_x dataPoints c hx, sumX4_of_const_x dataPoints c hx]
    ring
  have hnotlt : ¬ dataPoints.length < 3 := Nat.not_lt.mpr hlen
  unfold leastSquaresFit
  rw [if_neg hnotlt, if_pos]
  rw [hdenom]
  norm_num

/-- Witness for C2 at the concrete list `[(2,1),(2,5),(2,7)]` whose x values
are all 2. -/
theorem leastSquaresFit_singular_of_const_x_witness :
    3 ≤ ([⟨2, 1⟩, ⟨2, 5⟩, ⟨2, 7⟩] : List Point).length ∧
    (∀ p ∈ ([⟨2, 1⟩, ⟨2, 5⟩, ⟨2, 7⟩] : List Point), p.x = 2) ∧
    leastSquaresFit [⟨2, 1⟩, ⟨2, 5⟩, ⟨2, 7⟩] = .error .singularSystem :=
  ⟨by decide, by decide,
   leastSquaresFit_singular_of_const_x _ 2 (by decide) (by decide)⟩

/-- C1: evaluation of the code at the failing input.  The points
`(1,1), (2,2), (3,3)` lie exactly on the quadratic `y = 1·x + 0·x²`, yet
`leastSquaresFit` returns `A = 6/7 ≠ 1`, `B = 12/49 ≠ 0`, and `calculateR2`
at the returned coefficients is `−1974/2401`, not `1`: the function solves
the normal equations of the intercept model `y = A + B·x²` while its own
documentation (and `calculateR2`, which predicts with `A·x + B·x²`) promise
the model `y = A·x + B·x²`. -/
theorem leastSquaresFit_misses_exact_quadratic :
    leastSquaresFit [⟨1, 1⟩, ⟨2, 2⟩, ⟨3, 3⟩] = .ok (6/7, 12/49) ∧
    (6/7 : ℚ) ≠ 1 ∧ (12/49 : ℚ) ≠ 0 ∧
    calculateR2 [⟨1, 1⟩, ⟨2, 2⟩, ⟨3, 3⟩] (6/7) (12/49) = -1974/2401 := by
  refine ⟨?_, by norm_num, by norm_num, ?_⟩
  · unfold leastSquaresFit lsfDenom sumX2 sumX4 sumY sumX2Y
    norm_num
  · unfold calculateR2 ssRes ssTot yMean
    norm_num

/-! ## Darcy–Forchheimer coefficient derivation (C3, C5) -/

/-- An idealised JavaScript number: an exact rational, a signed infinity, or
`NaN`.  Needed because `calcDarcyForchheimer` divides without guarding its
denominators, so a zero denominator silently produces an IEEE-754 special
value rather than an error. -/
inductive JSVal where
  | fin (q : ℚ)
  | inf
  | ninf
  | nan
deriving DecidableEq

/-- JavaScript division of two finite numbers, idealised: the exact quotient
when the divisor is non-zero, otherwise `±Infinity` (taking the sign of the
dividend) or `NaN` for `0 / 0`, as in IEEE-754. -/
def jsDiv (a b : ℚ) : JSVal :=
  if b ≠ 0 then .fin (a / b)
  else if 0 < a then .inf
  else if a < 0 then .ninf
  else .nan

/-- `calcDarcyForchheimer` from the porous-media page script (`part_001`,
lines 52–56); the same formulas appear inline in `performCurveFitting`
(`curve_fitting.js`, lines 256–260): `d = A / (mu * L)`,
`f = (2 * B) / (rho * L)`, with no guard on either denominator. -/
def calcDarcyForchheimer (A B mu rho L : ℚ) : JSVal × JSVal :=
  (jsDiv A (mu * L), jsDiv (2 * B) (rho * L))

/-- C5: whenever `mu*L` and `rho*L` are non-zero the derivation returns
exactly `d = A/(mu*L)` and `f = 2B/(rho*L)`. -/
theorem calcDarcyForchheimer_formula (A B mu rho L : ℚ)
    (hmu : mu * L ≠ 0) (hrho : rho * L ≠ 0) :
    calcDarcyForchheimer A B mu rho L =
      (.fin (A / (mu * L)), .fin (2 * B / (rho * L))) := by
  simp [calcDarcyForchheimer, jsDiv, hmu, hrho]

/-- Witness for C5 at the spec's example `A=2.5, B=0.8, μ=0.001, ρ=998,
L=0.1`: `d = 25000` and `f = 1.6/99.8 = 8/499 ≈ 0.016032`. -/
theorem calcDarcyForchheimer_formula_witness :
    (1/1000 : ℚ) * (1/10) ≠ 0 ∧ (998 : ℚ) * (1/10) ≠ 0 ∧
    calcDarcyForchheimer (5/2) (4/5) (1/1000) 998 (1/10) =
      (.fin 25000, .fin (8/499)) := by
  refine ⟨by norm_num, by norm_num, ?_⟩
  rw [calcDarcyForchheimer_formula (5/2) (4/5) (1/1000) 998 (1/10)
    (by norm_num) (by norm_num)]
  norm_num

/-- C3 counterexample: at `A = 2.5, B = 0.8, μ = 0, ρ = 998, L = 0.1` we have
`μ·L = 0`, yet the derivation does not fail — it silently returns the
infinite value `d = Infinity`, exactly what the claim says it must not do. -/
theorem calcDarcyForchheimer_silent_infinity :
    (calcDarcyForchheimer (5/2) (4/5) 0 998 (1/10)).1 = JSVal.inf := by
  norm_num [calcDarcyForchheimer, jsDiv]

/-- C3 amended: the derivation has no division-by-zero guard and cannot
raise; when a denominator is zero the affected coefficient is the silently
produced non-finite JS value (`Infinity` for a positive numerator). -/
theorem calcDarcyForchheimer_unguarded (A B mu rho L : ℚ)
    (hmuL : mu * L = 0) (hrhoL : rho * L = 0) (hA : 0 < A) (hB : 0 < B) :
    calcDarcyForchheimer A B mu rho L = (JSVal.inf, JSVal.inf) := by
  have h2B : 0 < 2 * B := by linarith
  unfold calcDarcyForchheimer jsDiv
  rw [hmuL, hrhoL]
  simp [hA, h2B]

/-- Witness for the amended C3 at `A=2.5, B=0.8, μ=0, ρ=0, L=1`. -/
theorem calcDarcyForchheimer_unguarded_witness :
    (0 : ℚ) * 1 = 0 ∧ (0 : ℚ) < 5/2 ∧ (0 : ℚ) < 4/5 ∧
    calcDarcyForchheimer (5/2) (4/5) 0 0 1 = (JSVal.inf, JSVal.inf) :=
  ⟨by norm_num, by norm_num, by norm_num,
   calcDarcyForchheimer_unguarded (5/2) (4/5) 0 0 1
     (by norm_num) (by norm_num) (by norm_num) (by norm_num)⟩

/-! ## Goodness of fit is bounded by 1 (C8) -/

lemma ssRes_nonneg (dataPoints : List Point) (A B : ℚ) :
    0 ≤ ssRes dataPoints A B := by
  apply List.sum_nonneg
  intro v hv
  obtain ⟨p, _, rfl⟩ := List.mem_map.mp hv
  exact sq_nonneg _

lemma ssTot_pos_of_exists_ne_mean (dataPoints : List Point)
    (h : ∃ p ∈ dataPoints, p.y ≠ yMean dataPoints) :
    0 < ssTot dataPoints := by
  obtain ⟨p, hp, hpy⟩ := h
  have hnn : ∀ v ∈ dataPoints.map fun q => (q.y - yMean dataPoints) ^ 2, 0 ≤ v := by
    intro v hv
    obtain ⟨q, _, rfl⟩ := List.mem_map.mp hv
    exact sq_nonneg _
  have hmem : (p.y - yMean dataPoints) ^ 2 ∈
      dataPoints.map fun q => (q.y - yMean dataPoints) ^ 2 :=
    List.mem_map_of_mem _ hp
  have hpos : 0 < (p.y - yMean dataPoints) ^ 2 :=
    lt_of_le_of_ne (sq_nonneg _)
      (Ne.symm (pow_ne_zero 2 (sub_ne_zero.mpr hpy)))
  exact lt_of_lt_of_le hpos (List.single_le_sum hnn _ hmem)

/-- C8: for every non-empty sample list whose y values are not all identical
and every pair of coefficients, `calculateR2` is at most 1: the residual sum
of squares is non-negative and the total sum of squares is positive, so
`1 - ssRes/ssTot ≤ 1`. -/
theorem calculateR2_le_one (dataPoints : List Point) (A B : ℚ)
    (hne : dataPoints ≠ [])
    (hvar : ∃ p ∈ dataPoints, ∃ q ∈ dataPoints, p.y ≠ q.y) :
    calculateR2 dataPoints A B ≤ 1 := by
  have hmean : ∃ p ∈ dataPoints, p.y ≠ yMean dataPoints := by
    obtain ⟨p, hp, q, hq, hpq⟩ := hvar
    by_cases h : p.y = yMean dataPoints
    · exact ⟨q, hq, fun hqy => hpq (h.trans hqy.symm)⟩
    · exact ⟨p, hp, h⟩
  have htot := ssTot_pos_of_exists_ne_mean dataPoints hmean
  have hres := ssRes_nonneg dataPoints A B
  unfold calculateR2
  have : 0 ≤ ssRes dataPoints A B / ssTot dataPoints :=
    div_nonneg hres htot.le
  linarith

/-- Witness for C8 at `[(0,0),(1,1)]` with `A = B = 0` (there `R² = −1`). -/
theorem calculateR2_le_one_witness :
    ([⟨0, 0⟩, ⟨1, 1⟩] : List Point) ≠ [] ∧
    (∃ p ∈ ([⟨0, 0⟩, ⟨1, 1⟩] : List Point),
      ∃ q ∈ ([⟨0, 0⟩, ⟨1, 1⟩] : List Point), p.y ≠ q.y) ∧
    calculateR2 [⟨0, 0⟩, ⟨1, 1⟩] 0 0 ≤ 1 :=
  ⟨by decide, by decide,
   calculateR2_le_one _ 0 0 (by decide) (by decide)⟩

/-! ## Fluid property model (`getOilProperties.js`) -/

/-- One entry of a fluid's `"Kinematic Viscosity Limits"` list:
`{temperature (K), kinematicViscosity (mm²/s)}`. -/
structure ViscosityPoint where
  temperature : ℚ
  kinematicViscosity : ℚ
deriving DecidableEq

/-- One fluid record of the loaded JSON table.  `densityAt15C = none` models
a missing/undefined `DensityAt15C` field. -/
structure FluidEntry where
  densityAt15C : Option ℚ
  kinViscLimits : List ViscosityPoint
deriving DecidableEq

/-- The loaded `fluidData` table: fluid name → record. -/
abbrev FluidTable := List (String × FluidEntry)

/-- `DENSITY_COEFFICIENT = 0.00065` (K⁻¹). -/
def DENSITY_COEFFICIENT : ℚ := 0.00065

/-- `REFERENCE_TEMP_K = 288.15` (15 °C). -/
def REFERENCE_TEMP_K : ℚ := 288.15

/-- `getDensityAtTemp` from `getOilProperties.js` (lines 61–74).  The result
is `none` where the source returns `NaN`: unknown fluid, or a
`DensityAt15C` field that is missing or zero (the source tests the field
with JavaScript truthiness, `!fluid.DensityAt15C`, so `0` is rejected like
a missing field).  Temperatures are rationals, so the source's
`Number.isFinite(tK)` guard is always satisfied. -/
def getDensityAtTemp (fluidData : FluidTable) (name : String) (tK : ℚ) :
    Option ℚ :=
  match fluidData.lookup name with
  | none => none
  | some fluid =>
    match fluid.densityAt15C with
    | none => none
    | some d =>
      if d = 0 then none
      else some (d * (1 - DENSITY_COEFFICIENT * (tK - REFERENCE_TEMP_K)))

/-- `WALTHER_CONSTANT = 0.8`. -/
def WALTHER_CONSTANT : ℝ := 0.8

/-- `calculateWaltherTransform` (lines 80–82):
`W(ν) = log10(log10(ν + 0.8))`. -/
noncomputable def calculateWaltherTransform (viscosity : ℝ) : ℝ :=
  Real.logb 10 (Real.logb 10 (viscosity + WALTHER_CONSTANT))

/-- `inverseWaltherTransform` (lines 88–90): `ν(h) = 10^(10^h) − 0.8`. -/
noncomputable def inverseWaltherTransform (h : ℝ) : ℝ :=
  (10 : ℝ) ^ ((10 : ℝ) ^ h) - WALTHER_CONSTANT

/-- `getKinViscAtTemp` from `getOilProperties.js` (lines 124–162): takes the
first two reference points, fits the line `W = m·log10(T) + n` through their
Walther transforms and inverse-transforms at the query temperature.  Returns
`none` where the source returns `NaN` (unknown fluid or fewer than two
reference points); the finiteness checks on the reference data are always
satisfied over `ℚ`. -/
noncomputable def getKinViscAtTemp (fluidData : FluidTable) (name : String)
    (tK : ℚ) : Option ℝ :=
  match fluidData.lookup name with
  | none => none
  | some fluid =>
    match fluid.kinViscLimits with
    | p1 :: p2 :: _ =>
      let W1 := calculateWaltherTransform (p1.kinematicViscosity : ℝ)
      let W2 := calculateWaltherTransform (p2.kinematicViscosity : ℝ)
      let m := (W2 - W1) /
        (Real.logb 10 (p2.temperature : ℝ) - Real.logb 10 (p1.temperature : ℝ))
      let n := W1 - m * Real.logb 10 (p1.temperature : ℝ)
      some (inverseWaltherTransform (m * Real.logb 10 (tK : ℝ) + n))
    | _ => none

/-- `getDynViscAtTemp` from `getOilProperties.js` (lines 172–184):
`μ = ν · 10⁻⁶ · ρ`, propagating `NaN` (here `none`) if either
sub-computation fails. -/
noncomputable def getDynViscAtTemp (fluidData : FluidTable) (name : String)
    (tK : ℚ) : Option ℝ :=
  match getKinViscAtTemp fluidData name tK, getDensityAtTemp fluidData name tK with
  | some kinVisc, some density => some (kinVisc * (1 / 1000000) * (density : ℝ))
  | _, _ => none

/-! ## Claims C7 and C10: density model -/

/-- C7: for a fluid with a non-zero reference density, `getDensityAtTemp` at
any finite temperature returns `DensityAt15C · (1 − 0.00065·(T − 288.15))`,
and at the reference temperature 288.15 K it returns exactly
`DensityAt15C`. -/
theorem getDensityAtTemp_formula (fluidData : FluidTable) (name : String)
    (fluid : FluidEntry) (rho : ℚ) (tK : ℚ)
    (hlook : fluidData.lookup name = some fluid)
    (hrho : fluid.densityAt15C = some rho) (hne : rho ≠ 0) :
    getDensityAtTemp fluidData name tK =
      some (rho * (1 - DENSITY_COEFFICIENT * (tK - REFERENCE_TEMP_K))) ∧
    getDensityAtTemp fluidData name REFERENCE_TEMP_K = some rho := by
  constructor
  · simp [getDensityAtTemp, hlook, hrho, hne]
  · simp [getDensityAtTemp, hlook, hrho, hne]

/-- Witness for C7: a one-fluid table with reference density 870 kg/m³,
queried at 300 K and at 288.15 K. -/
theorem getDensityAtTemp_formula_witness :
    ([("HLP 46", ⟨some 870, []⟩)] : FluidTable).lookup "HLP 46" =
      some ⟨some 870, []⟩ ∧
    (870 : ℚ) ≠ 0 ∧
    getDensityAtTemp [("HLP 46", ⟨some 870, []⟩)] "HLP 46" 300 =
      some (870 * (1 - DENSITY_COEFFICIENT * (300 - REFERENCE_TEMP_K))) ∧
    getDensityAtTemp [("HLP 46", ⟨some 870, []⟩)] "HLP 46" REFERENCE_TEMP_K =
      some 870 := by
  refine ⟨by decide, by norm_num, ?_, ?_⟩
  · exact (getDensityAtTemp_formula _ "HLP 46" ⟨some 870, []⟩ 870 300
      (by decide) rfl (by norm_num)).1
  · exact (getDensityAtTemp_formula _ "HLP 46" ⟨some 870, []⟩ 870 300
      (by decide) rfl (by norm_num)).2

/-- C10: a fluid present in the table whose `DensityAt15C` field is `0` (or
missing) is indistinguishable from an unknown fluid: `getDensityAtTemp`
returns `NaN` (`none`) at every finite temperature, because the source tests
the field for truthiness, and consequently `getDynViscAtTemp` also returns
`NaN` for that fluid. -/
theorem getDensityAtTemp_zero_density (fluidData : FluidTable) (name : String)
    (fluid : FluidEntry) (tK tK' : ℚ)
    (hlook : fluidData.lookup name = some fluid)
    (hrho : fluid.densityAt15C = some 0 ∨ fluid.densityAt15C = none) :
    getDensityAtTemp fluidData name tK = none ∧
    getDynViscAtTemp fluidData name tK' = none := by
  have hd : ∀ t : ℚ, getDensityAtTemp fluidData name t = none := by
    intro t
    rcases hrho with h | h <;> simp [getDensityAtTemp, hlook, h]
  refine ⟨hd tK, ?_⟩
  unfold getDynViscAtTemp
  rw [hd tK']
  cases getKinViscAtTemp fluidData name tK' <;> rfl

/-- Witness for C10: a fluid with two valid viscosity reference points but a
zero `DensityAt15C` field yields `none` for density and dynamic viscosity. -/
theorem getDensityAtTemp_zero_density_witness :
    ([("broken", ⟨some 0, [⟨313.15, 46⟩, ⟨373.15, 6.8⟩]⟩)] : FluidTable).lookup
        "broken" = some ⟨some 0, [⟨313.15, 46⟩, ⟨373.15, 6.8⟩]⟩ ∧
    getDensityAtTemp [("broken", ⟨some 0, [⟨313.15, 46⟩, ⟨373.15, 6.8⟩]⟩)]
      "broken" 300 = none ∧
    getDynViscAtTemp [("broken", ⟨some 0, [⟨313.15, 46⟩, ⟨373.15, 6.8⟩]⟩)]
      "broken" 320 = none := by
  refine ⟨rfl, ?_, ?_⟩
  · exact (getDensityAtTemp_zero_density
      [("broken", ⟨some 0, [⟨313.15, 46⟩, ⟨373.15, 6.8⟩]⟩)] "broken"
      ⟨some 0, [⟨313.15, 46⟩, ⟨373.15, 6.8⟩]⟩ 300 320 rfl (Or.inl rfl)).1
  · exact (getDensityAtTemp_zero_density
      [("broken", ⟨some 0, [⟨313.15, 46⟩, ⟨373.15, 6.8⟩]⟩)] "broken"
      ⟨some 0, [⟨313.15, 46⟩, ⟨373.15, 6.8⟩]⟩ 300 320 rfl (Or.inl rfl)).2

/-! ## Claim C6: the Walther fit recovers its reference points -/

lemma inverseWalther_walther (v : ℝ) (hv : 1 < v + WALTHER_CONSTANT) :
    inverseWaltherTransform (calculateWaltherTransform v) = v := by
  unfold inverseWaltherTransform calculateWaltherTransform
  have h1 : (0 : ℝ) < v + WALTHER_CONSTANT := lt_trans one_pos hv
  have h2 : 0 < Real.logb 10 (v + WALTHER_CONSTANT) :=
    Real.logb_pos (by norm_num) hv
  rw [Real.rpow_logb (by norm_num) (by norm_num) h2,
      Real.rpow_logb (by norm_num) (by norm_num) h1]
  ring

lemma walther_line_eval_left (W1 W2 L1 L2 : ℝ) :
    (W2 - W1) / (L2 - L1) * L1 + (W1 - (W2 - W1) / (L2 - L1) * L1) = W1 := by
  ring

lemma walther_line_eval_right (W1 W2 L1 L2 : ℝ) (h : L2 - L1 ≠ 0) :
    (W2 - W1) / (L2 - L1) * L2 + (W1 - (W2 - W1) / (L2 - L1) * L1) = W2 := by
  have hc : (W2 - W1) / (L2 - L1) * (L2 - L1) = W2 - W1 := div_mul_cancel₀ _ h
  nlinarith [hc]

/-- C6: for a fluid whose table entry has exactly two reference points
`(T1, ν1)`, `(T2, ν2)` with distinct positive temperatures and viscosities
above the Walther-transform threshold (`ν + 0.8 > 1`, so that both `log10`
applications are defined, as they are for all physical table data),
`getKinViscAtTemp` evaluated at `T1` returns exactly `ν1` and at `T2`
returns exactly `ν2` — the two-point fit composed with the inverse transform
is an exact round trip over real arithmetic (hence well within the source's
5 % validation threshold). -/
theorem getKinViscAtTemp_recovers_references (fluidData : FluidTable)
    (name : String) (fluid : FluidEntry) (T1 V1 T2 V2 : ℚ)
    (hlook : fluidData.lookup name = some fluid)
    (hkv : fluid.kinViscLimits = [⟨T1, V1⟩, ⟨T2, V2⟩])
    (hT1 : 0 < T1) (hT2 : 0 < T2) (hne : T1 ≠ T2)
    (hV1 : (1 : ℚ) < V1 + 0.8) (hV2 : (1 : ℚ) < V2 + 0.8) :
    getKinViscAtTemp fluidData name T1 = some (V1 : ℝ) ∧
    getKinViscAtTemp fluidData name T2 = some (V2 : ℝ) := by
  have hv1 : (1 : ℝ) < (V1 : ℝ) + WALTHER_CONSTANT := by
    unfold WALTHER_CONSTANT
    rw [show (0.8 : ℝ) = ((0.8 : ℚ) : ℝ) by norm_num]
    exact_mod_cast hV1
  have hv2 : (1 : ℝ) < (V2 : ℝ) + WALTHER_CONSTANT := by
    unfold WALTHER_CONSTANT
    rw [show (0.8 : ℝ) = ((0.8 : ℚ) : ℝ) by norm_num]
    exact_mod_cast hV2
  have h10 : (1 : ℝ) < 10 := by norm_num
  have hlogne : Real.logb 10 (T2 : ℝ) - Real.logb 10 (T1 : ℝ) ≠ 0 := by
    rcases lt_or_gt_of_ne hne with h | h
    · have := Real.logb_lt_logb h10 (by exact_mod_cast hT1)
        (show (T1 : ℝ) < (T2 : ℝ) by exact_mod_cast h)
      linarith
    · have := Real.logb_lt_logb h10 (by exact_mod_cast hT2)
        (show (T2 : ℝ) < (T1 : ℝ) by exact_mod_cast h)
      linarith
  constructor
  · simp only [getKinViscAtTemp, hlook, hkv]
    rw [walther_line_eval_left, inverseWalther_walther _ hv1]
  · simp only [getKinViscAtTemp, hlook, hkv]
    rw [walther_line_eval_right _ _ _ _ hlogne, inverseWalther_walther _ hv2]

/-- Witness for C6: a one-fluid table with reference points `(313.15, 46)`
and `(373.15, 6.8)` (an ISO VG 46 oil). -/
theorem getKinViscAtTemp_recovers_references_witness :
    ([("ISO VG 46", ⟨some 870, [⟨313.15, 46⟩, ⟨373.15, 6.8⟩]⟩)] :
        FluidTable).lookup "ISO VG 46" =
      some ⟨some 870, [⟨313.15, 46⟩, ⟨373.15, 6.8⟩]⟩ ∧
    (0 : ℚ) < 313.15 ∧ (313.15 : ℚ) ≠ 373.15 ∧ (1 : ℚ) < 46 + 0.8 ∧
    getKinViscAtTemp [("ISO VG 46", ⟨some 870, [⟨313.15, 46⟩, ⟨373.15, 6.8⟩]⟩)]
      "ISO VG 46" 313.15 = some ((46 : ℚ) : ℝ) ∧
    getKinViscAtTemp [("ISO VG 46", ⟨some 870, [⟨313.15, 46⟩, ⟨373.15, 6.8⟩]⟩)]
      "ISO VG 46" 373.15 = some ((6.8 : ℚ) : ℝ) := by
  refine ⟨rfl, by norm_num, by norm_num, by norm_num, ?_, ?_⟩
  · exact (getKinViscAtTemp_recovers_references
      [("ISO VG 46", ⟨some 870, [⟨313.15, 46⟩, ⟨373.15, 6.8⟩]⟩)] "ISO VG 46"
      ⟨some 870, [⟨313.15, 46⟩, ⟨373.15, 6.8⟩]⟩ 313.15 46 373.15 6.8
      rfl rfl (by norm_num) (by norm_num) (by norm_num) (by norm_num)
      (by norm_num)).1
  · exact (getKinViscAtTemp_recovers_references
      [("ISO VG 46", ⟨some 870, [⟨313.15, 46⟩, ⟨373.15, 6.8⟩]⟩)] "ISO VG 46"
      ⟨some 870, [⟨313.15, 46⟩, ⟨373.15, 6.8⟩]⟩ 313.15 46 373.15 6.8
      rfl rfl (by norm_num) (by norm_num) (by norm_num) (by norm_num)
      (by norm_num)).2

/-! ## Unit conversion module (C4) -/

/-- The failure modes of the conversion module: the
`'Unit must be a non-empty string'` throw in `normalizeUnit`, the
`'Unsupported temperature unit'` throws in the temperature helpers, and the
single final `'Unsupported conversion from "..." to "..."'` throw in
`convertUnit`. -/
inductive ConvError where
  | emptyUnit
  | unsupportedTemperatureUnit
  | unsupportedConversion
deriving DecidableEq

/-- `lengthFactors` (base unit: meter). -/
def lengthFactors : List (String × ℚ) :=
  [("m", 1), ("cm", 0.01), ("mm", 0.001), ("in", 0.0254), ("ft", 0.3048)]

/-- `areaFactors` (base unit: square meter). -/
def areaFactors : List (String × ℚ) :=
  [("m^2", 1), ("cm^2", 0.0001), ("mm^2", 1e-6), ("in^2", 0.00064516),
   ("ft^2", 0.092903)]

/-- `densityFactors` (base unit: kg/m³). -/
def densityFactors : List (String × ℚ) :=
  [("kg/m^3", 1), ("g/cm^3", 1000), ("lb/ft^3", 16.0185)]

/-- `kinViscFactors` (base unit: m²/s). -/
def kinViscFactors : List (String × ℚ) :=
  [("m^2/s", 1), ("mm^2/s", 1e-6), ("cSt", 1e-6)]

/-- `dynViscFactors` (base unit: Pa·s). -/
def dynViscFactors : List (String × ℚ) :=
  [("Pa*s", 1), ("mPa*s", 1e-3), ("cP", 1e-3)]

/-- `volumeFactors` (base unit: cubic meter). -/
def volumeFactors : List (String × ℚ) :=
  [("m^3", 1), ("L", 0.001), ("mL", 1e-6), ("in^3", 1.6387e-5),
   ("ft^3", 0.0283168), ("gal(US)", 0.00378541), ("gal(UK)", 0.00454609)]

/-- `flowFactors` (base unit: m³/s). -/
def flowFactors : List (String × ℚ) :=
  [("m^3/s", 1), ("L/s", 0.001), ("L/min", 0.001 / 60),
   ("gpm", 0.00378541 / 60), ("gal/h", 0.00378541 / 3600),
   ("ft^3/s", 0.0283168), ("kg/s", 1), ("lb/s", 0.453592)]

/-- `pressureFactors` (base unit: Pascal). -/
def pressureFactors : List (String × ℚ) :=
  [("Pa", 1), ("kPa", 1000), ("MPa", 1e6), ("GPa", 1e9), ("bar", 100000),
   ("psi", 6894.76), ("atm", 101325)]

/-- `forceFactors` (base unit: Newton). -/
def forceFactors : List (String × ℚ) :=
  [("N", 1), ("kN", 1000), ("lbf", 4.44822), ("kgf", 9.80665)]

/-- `temperatureUnits = ["C", "F", "K"]`. -/
def temperatureUnits : List String := ["C", "F", "K"]

/-- `unitTypeRegistry`: the nine linear factor tables, in source order. -/
def unitTypeRegistry : List (List (String × ℚ)) :=
  [lengthFactors, areaFactors, densityFactors, kinViscFactors, dynViscFactors,
   volumeFactors, flowFactors, pressureFactors, forceFactors]

/-- JavaScript's `unit.toUpperCase()` on the ASCII unit strings: upper-case
every character.  (Defined structurally over the character list so that it
evaluates by kernel reduction.) -/
def toUpperCase (s : String) : String :=
  ⟨s.data.map Char.toUpper⟩

/-- `normalizeUnit`: rejects the empty string, upper-cases temperature units
(case-insensitively), returns every other unit unchanged. -/
def normalizeUnit (unit : String) : Except ConvError String :=
  if unit = "" then .error .emptyUnit
  else
    let upperUnit := toUpperCase unit
    if upperUnit ∈ temperatureUnits then .ok upperUnit else .ok unit

/-- `temperatureToKelvin`; `none` models the `default:` throw. -/
def temperatureToKelvin (unit : String) (value : ℚ) : Option ℚ :=
  if unit = "K" then some value
  else if unit = "C" then some (value + 273.15)
  else if unit = "F" then some ((value - 32) * 5 / 9 + 273.15)
  else none

/-- `temperatureFromKelvin`; `none` models the `default:` throw. -/
def temperatureFromKelvin (unit : String) (valueK : ℚ) : Option ℚ :=
  if unit = "K" then some valueK
  else if unit = "C" then some (valueK - 273.15)
  else if unit = "F" then some ((valueK - 273.15) * 9 / 5 + 32)
  else none

/-- The `for (const [typeName, factorTable] of Object.entries(...))` loop of
`convertUnit`: the first table containing both units performs the linear
conversion `value * (factor_from / factor_to)`. -/
def findLinearConversion (tables : List (List (String × ℚ)))
    (fromUnit toUnit : String) (value : ℚ) : Option ℚ :=
  match tables with
  | [] => none
  | table :: rest =>
    match table.lookup fromUnit, table.lookup toUnit with
    | some fromFactor, some toFactor => some (value * (fromFactor / toFactor))
    | _, _ => findLinearConversion rest fromUnit toUnit value

/-- `convertUnit` from the conversion module (lines 299–340): normalizes both
units, returns the value unchanged when they are equal, converts through
Kelvin when both are temperature units, otherwise scans the registry for a
table containing both, and throws a single "unsupported conversion" error
when none does.  The value is a rational, so the source's
`Number.isFinite(value)` guard is always satisfied. -/
def convertUnit (originalUnit newUnit : String) (value : ℚ) :
    Except ConvError ℚ :=
  match normalizeUnit originalUnit, normalizeUnit newUnit with
  | .error e, _ => .error e
  | .ok _, .error e => .error e
  | .ok fromUnit, .ok toUnit =>
    if fromUnit = toUnit then .ok value
    else if fromUnit ∈ temperatureUnits ∧ toUnit ∈ temperatureUnits then
      match temperatureToKelvin fromUnit value with
      | none => .error .unsupportedTemperatureUnit
      | some k =>
        match temperatureFromKelvin toUnit k with
        | none => .error .unsupportedTemperatureUnit
        | some r => .ok r
    else
      match findLinearConversion unitTypeRegistry fromUnit toUnit value with
      | some r => .ok r
      | none => .error .unsupportedConversion

/-- Two normalized unit strings belong to a common quantity type when both
are temperature units or some registered factor table contains both. -/
def sameQuantity (fromUnit toUnit : String) : Prop :=
  (fromUnit ∈ temperatureUnits ∧ toUnit ∈ temperatureUnits) ∨
  ∃ table ∈ unitTypeRegistry,
    (table.lookup fromUnit).isSome ∧ (table.lookup toUnit).isSome

instance (fromUnit toUnit : String) : Decidable (sameQuantity fromUnit toUnit) := by
  unfold sameQuantity
  infer_instance

lemma findLinearConversion_eq_none (tables : List (List (String × ℚ)))
    (fromUnit toUnit : String) (value : ℚ)
    (h : ∀ table ∈ tables,
      ¬((table.lookup fromUnit).isSome ∧ (table.lookup toUnit).isSome)) :
    findLinearConversion tables fromUnit toUnit value = none := by
  induction tables with
  | nil => rfl
  | cons table rest ih =>
    have htab := h table (List.mem_cons_self table rest)
    have hrest := ih fun t ht => h t (List.mem_cons_of_mem _ ht)
    unfold findLinearConversion
    cases hf : table.lookup fromUnit with
    | none => simpa [hf] using hrest
    | some a =>
      cases ht : table.lookup toUnit with
      | none => simpa [hf, ht] using hrest
      | some b =>
        exact absurd ⟨by simp [hf], by simp [ht]⟩ htab

/-- C4 counterexample: the unit string `"xyz"` is absent from every
registered quantity-type table, yet `convertUnit "xyz" "xyz" 5` returns the
numeric result `5`: the same-unit fast path precedes any registration
check, contradicting the claim that the conversion never returns a numeric
result for an unregistered unit. -/
theorem convertUnit_unknown_identity :
    convertUnit "xyz" "xyz" 5 = .ok 5 := rfl

/-- C4 amended: whenever the two normalized unit strings differ and no
common quantity type holds both (one is unregistered, or they belong to
different quantity types), `convertUnit` fails — with the single combined
`unsupportedConversion` error the source uses for both cases; only equal
(normalized) unit strings bypass the registration check. -/
theorem convertUnit_error_of_not_sameQuantity (u v : String) (x : ℚ)
    (f t : String)
    (hu : normalizeUnit u = .ok f) (hv : normalizeUnit v = .ok t)
    (hne : f ≠ t) (hsq : ¬ sameQuantity f t) :
    convertUnit u v x = .error ConvError.unsupportedConversion := by
  have htemp : ¬(f ∈ temperatureUnits ∧ t ∈ temperatureUnits) :=
    fun h => hsq (Or.inl h)
  have htables : ∀ table ∈ unitTypeRegistry,
      ¬((table.lookup f).isSome ∧ (table.lookup t).isSome) := by
    intro table htable hboth
    exact hsq (Or.inr ⟨table, htable, hboth⟩)
  unfold convertUnit
  rw [hu, hv]
  simp only [if_neg hne, if_neg htemp,
    findLinearConversion_eq_none unitTypeRegistry f t x htables]

/-- Witness for the amended C4: `"m"` (length) and `"Pa"` (pressure) belong
to different quantity types, so the conversion fails. -/
theorem convertUnit_error_witness :
    normalizeUnit "m" = .ok "m" ∧ normalizeUnit "Pa" = .ok "Pa" ∧
    ("m" : String) ≠ "Pa" ∧ ¬ sameQuantity "m" "Pa" ∧
    convertUnit "m" "Pa" 3 = .error ConvError.unsupportedConversion :=
  ⟨rfl, rfl, by decide, by decide,
   convertUnit_error_of_not_sameQuantity "m" "Pa" 3 "m" "Pa" rfl rfl
     (by decide) (by decide)⟩

/-! ## Supporting result: the porous-media page's `fitCurve` does recover
exact quadratic data, confirming that the property claimed of the fit is
the intended behaviour that `leastSquaresFit` fails to implement. -/

lemma zip_self_map (xs : List ℚ) (f : ℚ → ℚ) :
    xs.zip (xs.map f) = xs.map fun x => (x, f x) := by
  induction xs with
  | nil => rfl
  | cons a l ih => simp [ih]

lemma sum_x_mul_model (xs : List ℚ) (A0 B0 : ℚ) :
    (xs.map fun x => x * (A0 * x + B0 * (x * x))).sum =
      A0 * (xs.map fun x => x * x).sum + B0 * (xs.map fun x => x * x * x).sum := by
  induction xs with
  | nil => simp
  | cons x rest ih =>
    simp only [List.map_cons, List.sum_cons, ih]
    ring

lemma sum_x2_mul_model (xs : List ℚ) (A0 B0 : ℚ) :
    (xs.map fun x => x * x * (A0 * x + B0 * (x * x))).sum =
      A0 * (xs.map fun x => x * x * x).sum +
        B0 * (xs.map fun x => x * x * x * x).sum := by
  induction xs with
  | nil => simp
  | cons x rest ih =>
    simp only [List.map_cons, List.sum_cons, ih]
    ring

/-- `fitCurve` (the `part_001` formulation, which solves the correct normal
equations `A·Σx² + B·Σx³ = Σxy`, `A·Σx³ + B·Σx⁴ = Σx²y` of the no-intercept
model) recovers the exact coefficients of any noise-free quadratic input
whenever its 2×2 determinant `Σx²·Σx⁴ − (Σx³)²` is non-zero. -/
theorem fitCurve_recovers_exact_quadratic (xs : List ℚ) (A0 B0 : ℚ)
    (hdenom : (xs.map fun x => x * x).sum * (xs.map fun x => x * x * x * x).sum -
      (xs.map fun x => x * x * x).sum * (xs.map fun x => x * x * x).sum ≠ 0) :
    fitCurve xs (xs.map fun x => A0 * x + B0 * (x * x)) = (A0, B0) := by
  unfold fitCurve
  simp only [zip_self_map, List.map_map, Function.comp_def]
  rw [sum_x_mul_model, sum_x2_mul_model]
  have hA : ((xs.map fun x => x * x * x * x).sum *
        (A0 * (xs.map fun x => x * x).sum + B0 * (xs.map fun x => x * x * x).sum) -
      (xs.map fun x => x * x * x).sum *
        (A0 * (xs.map fun x => x * x * x).sum + B0 * (xs.map fun x => x * x * x * x).sum)) =
      A0 * ((xs.map fun x => x * x).sum * (xs.map fun x => x * x * x * x).sum -
        (xs.map fun x => x * x * x).sum * (xs.map fun x => x * x * x).sum) := by
    ring
  have hB : ((xs.map fun x => x * x).sum *
        (A0 * (xs.map fun x => x * x * x).sum + B0 * (xs.map fun x => x * x * x * x).sum) -
      (xs.map fun x => x * x * x).sum *
        (A0 * (xs.map fun x => x * x).sum + B0 * (xs.map fun x => x * x * x).sum)) =
      B0 * ((xs.map fun x => x * x).sum * (xs.map fun x => x * x * x * x).sum -
        (xs.map fun x => x * x * x).sum * (xs.map fun x => x * x * x).sum) := by
    ring
  rw [hA, hB, mul_div_assoc, mul_div_assoc, div_self hdenom, mul_one, mul_one]

end Simdev
